import Mathlib

/-!
Verification development for the Fastly Compute advanced-caching starter kit
(`src/main.rs`). The program registers a before-send hook, an after-send
cache-policy hook and a JSON-to-HTML body transform on a request and sends it
through the readthrough cache. The hooks are embedded directly from the Rust
source; the readthrough cache orchestrator, the storage collaborator and the
JSON library are external collaborators and are modelled from the design
specification where noted.
-/

namespace AdvancedCaching

/-- HTTP headers: an ordered list of name/value pairs. Header names compare
case-insensitively, as in `fastly::http`. -/
abbrev Headers := List (String × String)

/-- ASCII lowercasing of one character. -/
def lowerChar (c : Char) : Char :=
  if 'A' ≤ c ∧ c ≤ 'Z' then Char.ofNat (c.toNat + 32) else c

/-- ASCII lowercasing of a string, modelling the case-insensitive header-name
comparison of the `http` crate. -/
def lowerStr (s : String) : String :=
  String.mk (s.data.map lowerChar)

/-- ASCII whitespace. -/
def isWsChar (c : Char) : Bool :=
  c == ' ' || c == '\t' || c == '\n' || c == '\r'

/-- Strip leading and trailing whitespace. -/
def trimStr (s : String) : String :=
  String.mk (((s.data.dropWhile isWsChar).reverse.dropWhile isWsChar).reverse)

/-- `Request::get_header_str` / `CandidateResponse::get_header_str`: first
value of the named header, name compared case-insensitively. -/
def headerLookup (hs : Headers) (name : String) : Option String :=
  (hs.find? (fun p => lowerStr p.1 == lowerStr name)).map (fun p => p.2)

/-- `contains_header`: whether the named header is present. -/
def headerContains (hs : Headers) (name : String) : Bool :=
  (headerLookup hs name).isSome

/-- `set_header`: replace every value of the named header with the single
given value. -/
def headerSet (hs : Headers) (name v : String) : Headers :=
  (name, v) :: hs.filter (fun p => !(lowerStr p.1 == lowerStr name))

/-- `get_content_type` of a response, modelled as the (trimmed, lowercased)
value of the `Content-Type` header; mime equality in the source compares
case-insensitively on the full mime expression. -/
def getContentType (hs : Headers) : Option String :=
  (headerLookup hs "Content-Type").map (fun v => lowerStr (trimStr v))

/-! ## JSON values, modelling `serde_json::Value`.

The spec places JSON parsing out of scope (an external collaborator), so the
parser below is a model of `serde_json::from_str`: a fuel-bounded recursive
descent over the characters of the input, accepting the JSON value grammar.
-/

/-- `serde_json::Value`. Numbers keep their lexeme; no claim inspects them. -/
inductive Json where
  | null : Json
  | bool (b : Bool) : Json
  | num (lexeme : String) : Json
  | str (s : String) : Json
  | arr (elems : List Json) : Json
  | obj (fields : List (String × Json)) : Json
deriving Repr

/-- Skip JSON whitespace. -/
def skipWs : List Char → List Char
  | c :: rest =>
    if c = ' ' ∨ c = '\t' ∨ c = '\n' ∨ c = '\r' then skipWs rest else c :: rest
  | [] => []

/-- Value of one hex digit. -/
def hexVal (c : Char) : Option Nat :=
  if '0' ≤ c ∧ c ≤ '9' then some (c.toNat - '0'.toNat)
  else if 'a' ≤ c ∧ c ≤ 'f' then some (c.toNat - 'a'.toNat + 10)
  else if 'A' ≤ c ∧ c ≤ 'F' then some (c.toNat - 'A'.toNat + 10)
  else none

/-- Parse the remainder of a JSON string literal (after the opening quote),
returning its contents and the rest of the input. -/
def parseJStringAux : Nat → List Char → Option (List Char × List Char)
  | 0, _ => none
  | _, [] => none
  | fuel + 1, c :: rest =>
    if c = '"' then some ([], rest)
    else if c = '\\' then
      match rest with
      | [] => none
      | e :: rest2 =>
        let esc : Option (Char × List Char) :=
          if e = '"' then some ('"', rest2)
          else if e = '\\' then some ('\\', rest2)
          else if e = '/' then some ('/', rest2)
          else if e = 'b' then some ('\x08', rest2)
          else if e = 'f' then some ('\x0c', rest2)
          else if e = 'n' then some ('\n', rest2)
          else if e = 'r' then some ('\r', rest2)
          else if e = 't' then some ('\t', rest2)
          else if e = 'u' then
            match rest2 with
            | a :: b :: c2 :: d :: rest3 =>
              match hexVal a, hexVal b, hexVal c2, hexVal d with
              | some ha, some hb, some hc, some hd =>
                some (Char.ofNat (((ha * 16 + hb) * 16 + hc) * 16 + hd), rest3)
              | _, _, _, _ => none
            | _ => none
          else none
        match esc with
        | some (ch, rest3) =>
          (parseJStringAux fuel rest3).map (fun r => (ch :: r.1, r.2))
        | none => none
    else if c.toNat < 0x20 then none
    else (parseJStringAux fuel rest).map (fun r => (c :: r.1, r.2))

/-- Take a maximal run of decimal digits. -/
def takeDigits : List Char → List Char × List Char
  | c :: rest =>
    if c.isDigit then
      let r := takeDigits rest
      (c :: r.1, r.2)
    else ([], c :: rest)
  | [] => ([], [])

/-- Parse a JSON number lexeme starting at the head of the input. -/
def parseJNumber (cs : List Char) : Option (List Char × List Char) :=
  let (sign, cs1) :=
    match cs with
    | '-' :: r => (['-'], r)
    | _ => (([] : List Char), cs)
  let (intPart, cs2) := takeDigits cs1
  match intPart with
  | [] => none
  | '0' :: _ :: _ => none
  | _ =>
    let (fracPart, cs3) :=
      match cs2 with
      | '.' :: r =>
        let (ds, r2) := takeDigits r
        match ds with
        | [] => (none, cs2)
        | _ => (some ('.' :: ds), r2)
      | _ => (none, cs2)
    match fracPart with
    | none =>
      if (match cs3 with | '.' :: _ => true | _ => false) then none
      else
        expPart sign intPart [] cs3
    | some fp => expPart sign intPart fp cs3
where
  /-- Parse the optional exponent and assemble the lexeme. -/
  expPart (sign intPart fracPart : List Char) (cs : List Char) :
      Option (List Char × List Char) :=
    match cs with
    | e :: r =>
      if e = 'e' ∨ e = 'E' then
        let (esign, r2) :=
          match r with
          | '+' :: r3 => (['+'], r3)
          | '-' :: r3 => (['-'], r3)
          | _ => (([] : List Char), r)
        let (ds, r4) := takeDigits r2
        match ds with
        | [] => none
        | _ => some (sign ++ intPart ++ fracPart ++ e :: esign ++ ds, r4)
      else some (sign ++ intPart ++ fracPart, cs)
    | [] => some (sign ++ intPart ++ fracPart, [])

mutual

/-- Parse one JSON value (fuel-bounded). -/
def parseJValue : Nat → List Char → Option (Json × List Char)
  | 0, _ => none
  | fuel + 1, cs =>
    match skipWs cs with
    | [] => none
    | c :: rest =>
      if c = 'n' then
        match rest with
        | 'u' :: 'l' :: 'l' :: r => some (.null, r)
        | _ => none
      else if c = 't' then
        match rest with
        | 'r' :: 'u' :: 'e' :: r => some (.bool true, r)
        | _ => none
      else if c = 'f' then
        match rest with
        | 'a' :: 'l' :: 's' :: 'e' :: r => some (.bool false, r)
        | _ => none
      else if c = '"' then
        (parseJStringAux (fuel + 1) rest).map
          (fun r => (.str (String.mk r.1), r.2))
      else if c = '[' then
        match skipWs rest with
        | ']' :: r => some (.arr [], r)
        | cs2 => (parseJArrayItems fuel cs2).map (fun r => (.arr r.1, r.2))
      else if c = '\x7b' then
        match skipWs rest with
        | '\x7d' :: r => some (.obj [], r)
        | cs2 => (parseJObjectItems fuel cs2).map (fun r => (.obj r.1, r.2))
      else
        (parseJNumber (c :: rest)).map (fun r => (.num (String.mk r.1), r.2))

/-- Parse the comma-separated items of a JSON array, up to `]`. -/
def parseJArrayItems : Nat → List Char → Option (List Json × List Char)
  | 0, _ => none
  | fuel + 1, cs =>
    match parseJValue fuel cs with
    | none => none
    | some (v, rest) =>
      match skipWs rest with
      | ',' :: r => (parseJArrayItems fuel r).map (fun p => (v :: p.1, p.2))
      | ']' :: r => some ([v], r)
      | _ => none

/-- Parse the comma-separated members of a JSON object, up to the closing
brace. -/
def parseJObjectItems : Nat → List Char → Option (List (String × Json) × List Char)
  | 0, _ => none
  | fuel + 1, cs =>
    match skipWs cs with
    | '"' :: rest =>
      match parseJStringAux (fuel + 1) rest with
      | none => none
      | some (key, rest2) =>
        match skipWs rest2 with
        | ':' :: rest3 =>
          match parseJValue fuel rest3 with
          | none => none
          | some (v, rest4) =>
            match skipWs rest4 with
            | ',' :: r =>
              (parseJObjectItems fuel r).map
                (fun p => ((String.mk key, v) :: p.1, p.2))
            | '\x7d' :: r => some ([(String.mk key, v)], r)
            | _ => none
        | _ => none
    | _ => none

end

/-- `serde_json::from_str`: parse a complete JSON document, rejecting
trailing garbage. -/
def Json.parse (s : String) : Option Json :=
  match parseJValue (s.length + 1) s.data with
  | some (v, rest) => if (skipWs rest).isEmpty then some v else none
  | none => none

/-- `Value::index` by string key: on an object, the value of the key (last
occurrence wins, as `serde_json`'s map insertion overrides); `Null` on a
missing key or a non-object. -/
def Json.index (j : Json) (key : String) : Json :=
  match j with
  | .obj fields =>
    (((fields.filter (fun p => p.1 == key)).getLast?).map (fun p => p.2)).getD .null
  | _ => .null

/-- `Value::as_str`. -/
def Json.asStr : Json → Option String
  | .str s => some s
  | _ => none

/-! ## The body transform registered by the program. -/

/-- Outcome of one execution of a body-transform callback: the transformed
body written to the output sink with an `Ok` completion signal, a fallible
completion signal `Err`, or a panic (the callback traps instead of
returning). -/
inductive TransformResult where
  | ok (output : String) : TransformResult
  | err (msg : String) : TransformResult
  | panics : TransformResult
deriving DecidableEq, Repr

/-- The body-transform closure of `main.rs` (lines 118-130): parse the input
body as JSON — `.unwrap()` panics when parsing fails — then emit
`<div>firstName lastName</div>`, each field read with
`as_str().unwrap_or_default()`. -/
def jsonToHtmlTransform (bodyIn : String) : TransformResult :=
  match Json.parse bodyIn with
  | none => .panics
  | some json =>
    let firstName := ((json.index "firstName").asStr).getD ""
    let lastName := ((json.index "lastName").asStr).getD ""
    .ok ("<div>" ++ firstName ++ " " ++ lastName ++ "</div>")

/-! ## CandidateResponse and the after-send hook. -/

/-- `CandidateResponse`: mutable view over the origin reply's metadata plus
the optionally attached body transform. `ttl` is in whole seconds
(`Duration::from_secs`); `none` means the hook set no explicit override. -/
structure CandidateResponse where
  status : Nat
  headers : Headers
  ttl : Option Nat
  uncacheable : Option Bool
  transform : Option (String → TransformResult)

/-- One mutating call the after-send hook performs on its
`CandidateResponse`. -/
inductive PolicyCall where
  | setTtl (secs : Nat) : PolicyCall
  | setUncacheable (b : Bool) : PolicyCall
  | setContentType (m : String) : PolicyCall
  | setBodyTransform : PolicyCall
deriving DecidableEq, Repr

/-- Apply one policy call to a `CandidateResponse`. `setContentType` writes
the `Content-Type` header; `setBodyTransform` attaches the program's (only)
transform, replacing any previous one. -/
def applyCall (c : CandidateResponse) : PolicyCall → CandidateResponse
  | .setTtl n => { c with ttl := some n }
  | .setUncacheable b => { c with uncacheable := some b }
  | .setContentType m => { c with headers := headerSet c.headers "Content-Type" m }
  | .setBodyTransform => { c with transform := some jsonToHtmlTransform }

/-- The TTL/uncacheable decision of the after-send hook (`main.rs` lines
73-78): a `match` on `get_header_str("Content-Type")`. -/
def ttlCalls (ct : Option String) : List PolicyCall :=
  if ct = some "image" then [.setTtl 67]
  else if ct = some "text/html" then [.setTtl 321]
  else if ct = some "application/xml" then [.setUncacheable false]
  else [.setTtl 30]

/-- The full sequence of mutating calls the after-send hook of `main.rs`
(lines 61-134) performs on a candidate response, in program order: the
content-type `match`, then the hit-for-pass check on `my-private-header`,
then — when the content type is `application/json` — the content-type
rewrite to `text/html` and the transform attachment. Every call inspects
only fields the earlier calls never modify, so the sequence is a function of
the initial candidate. -/
def afterSendCalls (c : CandidateResponse) : List PolicyCall :=
  ttlCalls (headerLookup c.headers "Content-Type")
    ++ (if headerContains c.headers "my-private-header" then
          [.setUncacheable true]
        else [])
    ++ (if getContentType c.headers = some "application/json" then
          [.setContentType "text/html", .setBodyTransform]
        else [])

/-- The after-send hook of `main.rs` as a state transformer: apply its calls
in order. It always returns `Ok(())`. -/
def programAfterSend (c : CandidateResponse) : Except String CandidateResponse :=
  .ok ((afterSendCalls c).foldl applyCall c)

/-! ## Request and the before-send hook. -/

/-- `Request`: the mutable outgoing request representation. -/
structure Request where
  method : String
  url : String
  headers : Headers
  body : String
deriving Repr

/-- The before-send hook of `main.rs` (lines 33-45): set the
`authorization` header to `"Foo"` and return `Ok(())`. -/
def programBeforeSend (req : Request) : Except String Request :=
  .ok { req with headers := headerSet req.headers "authorization" "Foo" }

/-! ## The readthrough cache orchestrator.

The orchestrator, the transport and the storage engine are external
collaborators of this repository (the Fastly readthrough cache); they are
modelled from the specification's state machine (spec sections 4.4, 6 and 7)
and commit rules, parameterised over the hooks the program registers.
-/

/-- Modelled from the spec: a `CacheEntry` of the storage collaborator
(spec section 3). -/
structure CacheEntry where
  headers : Headers
  status : Nat
  body : String
  ttl : Nat
  uncacheable : Bool
  hitForPass : Bool
deriving DecidableEq, Repr

/-- Modelled from the spec: result of the storage lookup that starts an
exchange — a guaranteed hit, a miss, or a stale entry requiring
revalidation. -/
inductive LookupResult where
  | hit (e : CacheEntry) : LookupResult
  | miss : LookupResult
  | stale (e : CacheEntry) : LookupResult
deriving Repr

/-- Whether the lookup is a guaranteed hit. -/
def LookupResult.isHit : LookupResult → Bool
  | .hit _ => true
  | _ => false

/-- Modelled from the spec: the origin reply carries either a full body or is
a revalidation-only (not-modified) reply with no body (spec section 6,
`isRevalidationOnly`). -/
inductive ReplyKind where
  | full (body : String) : ReplyKind
  | revalidationOnly : ReplyKind
deriving DecidableEq, Repr

/-- Modelled from the spec: the transport's reply. -/
structure Reply where
  status : Nat
  headers : Headers
  kind : ReplyKind
deriving DecidableEq, Repr

/-- Modelled from the spec: the write the orchestrator's commit step issues
to the storage collaborator — a normal entry `put`, a hit-for-pass marker, a
metadata-only patch of the existing entry, or no write at all (spec
section 4.4, commit step). -/
inductive StorageOp where
  | put (e : CacheEntry) : StorageOp
  | hitForPassMarker : StorageOp
  | patchMetadata (headers : Headers) (ttl : Nat) (uncacheable : Bool) : StorageOp
  | noWrite : StorageOp
deriving DecidableEq, Repr

/-- Whether the commit wrote a normal entry. -/
def StorageOp.isPut : StorageOp → Bool
  | .put _ => true
  | _ => false

/-- Modelled from the spec: whether, after this write, a concurrent
identical-key exchange may collapse onto this one's result. A hit-for-pass
marker and an uncacheable patch suppress request collapsing; no write leaves
nothing to collapse onto (spec sections 3 and 5). -/
def StorageOp.allowsCollapsing : StorageOp → Bool
  | .put e => !e.uncacheable
  | .hitForPassMarker => false
  | .patchMetadata _ _ u => !u
  | .noWrite => false

/-- Modelled from the spec: effect of a storage write on the stored entry for
the key. A metadata patch on an absent entry is a no-op; the hit-for-pass
marker stores a body-less marker entry. -/
def applyOp (prev : Option CacheEntry) : StorageOp → Option CacheEntry
  | .put e => some e
  | .hitForPassMarker =>
    some { headers := [], status := 0, body := "", ttl := 0,
           uncacheable := true, hitForPass := true }
  | .patchMetadata hs t u =>
    prev.map (fun e => { e with headers := hs, ttl := t, uncacheable := u, hitForPass := u })
  | .noWrite => prev

/-- The body of a normally stored entry: `none` when the key holds nothing or
only a hit-for-pass marker. -/
def storedBody (s : Option CacheEntry) : Option String :=
  s.bind (fun e => if e.hitForPass then none else some e.body)

/-- What one exchange returns to the original caller: a response body, a
surfaced failure, or a trap (a callback panicked). -/
inductive ExchangeResult where
  | body (s : String) : ExchangeResult
  | failure (e : String) : ExchangeResult
  | trap : ExchangeResult
deriving DecidableEq, Repr

/-- Observable outcome of one exchange: what the caller receives, the
response headers delivered with it, the storage write, and how many times
each collaborator/hook ran. -/
structure Outcome where
  result : ExchangeResult
  respHeaders : Headers
  storageOp : StorageOp
  dispatchCount : Nat
  beforeSendCount : Nat
  afterSendCount : Nat
  transformRuns : Nat
deriving DecidableEq, Repr

/-- Modelled from the spec: the body of the previously stored (stale) entry,
used to build the caller-visible response on revalidation. -/
def prevBody (prev : Option CacheEntry) : String :=
  (prev.map (fun e => e.body)).getD ""

/-- Modelled from the spec: the commit step for a full-body reply. The
hook-set cacheability overrides the origin-derived default; `uncacheable
true` writes a hit-for-pass marker instead of a normal entry; the hook-set
TTL overrides the origin-derived default TTL (spec sections 4.2 and 4.4). -/
def commitFull (c : CandidateResponse) (bodyOut : String) (defaultTtl : Nat) :
    StorageOp :=
  if c.uncacheable = some true then .hitForPassMarker
  else
    .put { headers := c.headers, status := c.status, body := bodyOut,
           ttl := c.ttl.getD defaultTtl, uncacheable := false, hitForPass := false }

/-- Modelled from the spec: the `CandidateResponse` the orchestrator creates
from the origin reply immediately after it arrives — no TTL override, no
cacheability override, no transform attached yet (spec section 3). -/
def initialCandidate (rep : Reply) : CandidateResponse :=
  { status := rep.status, headers := rep.headers, ttl := none,
    uncacheable := none, transform := none }

/-- Modelled from the spec: the dispatch path of the orchestrator's state
machine — `RequestHookRun → Dispatching → ReplyReceived → PolicyHookRun →
(FullBodyPath | RevalidationPath) → Committed` (spec section 4.4). A request
hook failure aborts before dispatch; a policy hook failure degrades to "no
caching" with the raw reply still delivered; on a revalidation-only reply
only metadata is patched and the transform is never executed; a transform
failure abandons storage and falls back to the original body. -/
def dispatchPath (prev : Option CacheEntry) (req : Request)
    (beforeSend : Request → Except String Request)
    (afterSend : CandidateResponse → Except String CandidateResponse)
    (transportResult : Except String Reply) (defaultTtl : Nat) : Outcome :=
  match beforeSend req with
  | .error e =>
    { result := .failure e, respHeaders := [], storageOp := .noWrite,
      dispatchCount := 0, beforeSendCount := 1, afterSendCount := 0,
      transformRuns := 0 }
  | .ok _mutatedReq =>
    match transportResult with
    | .error e =>
      { result := .failure e, respHeaders := [], storageOp := .noWrite,
        dispatchCount := 1, beforeSendCount := 1, afterSendCount := 0,
        transformRuns := 0 }
    | .ok rep =>
      match afterSend (initialCandidate rep) with
      | .error _ =>
        match rep.kind with
        | .full b =>
          { result := .body b, respHeaders := rep.headers, storageOp := .noWrite,
            dispatchCount := 1, beforeSendCount := 1, afterSendCount := 1,
            transformRuns := 0 }
        | .revalidationOnly =>
          { result := .body (prevBody prev), respHeaders := rep.headers,
            storageOp := .noWrite, dispatchCount := 1, beforeSendCount := 1,
            afterSendCount := 1, transformRuns := 0 }
      | .ok c =>
        match rep.kind with
        | .revalidationOnly =>
          { result := .body (prevBody prev), respHeaders := c.headers,
            storageOp := .patchMetadata c.headers (c.ttl.getD defaultTtl)
              (c.uncacheable.getD false),
            dispatchCount := 1, beforeSendCount := 1, afterSendCount := 1,
            transformRuns := 0 }
        | .full b =>
          match c.transform with
          | none =>
            { result := .body b, respHeaders := c.headers,
              storageOp := commitFull c b defaultTtl,
              dispatchCount := 1, beforeSendCount := 1, afterSendCount := 1,
              transformRuns := 0 }
          | some f =>
            match f b with
            | .ok out =>
              { result := .body out, respHeaders := c.headers,
                storageOp := commitFull c out defaultTtl,
                dispatchCount := 1, beforeSendCount := 1, afterSendCount := 1,
                transformRuns := 1 }
            | .err _ =>
              { result := .body b, respHeaders := c.headers, storageOp := .noWrite,
                dispatchCount := 1, beforeSendCount := 1, afterSendCount := 1,
                transformRuns := 1 }
            | .panics =>
              { result := .trap, respHeaders := c.headers, storageOp := .noWrite,
                dispatchCount := 1, beforeSendCount := 1, afterSendCount := 1,
                transformRuns := 1 }

/-- Modelled from the spec: one full exchange of the readthrough cache
orchestrator. A guaranteed hit returns the stored value with no hooks run;
a miss or stale lookup takes the dispatch path (spec section 4.4). -/
def runExchange (l : LookupResult) (req : Request)
    (beforeSend : Request → Except String Request)
    (afterSend : CandidateResponse → Except String CandidateResponse)
    (transportResult : Except String Reply) (defaultTtl : Nat) : Outcome :=
  match l with
  | .hit e =>
    { result := .body e.body, respHeaders := e.headers, storageOp := .noWrite,
      dispatchCount := 0, beforeSendCount := 0, afterSendCount := 0,
      transformRuns := 0 }
  | .miss => dispatchPath none req beforeSend afterSend transportResult defaultTtl
  | .stale e =>
    dispatchPath (some e) req beforeSend afterSend transportResult defaultTtl

/-! ## Helper lemmas. -/

/-- `find?` commutes with a `filter` that keeps every element the searched-for
predicate accepts. -/
theorem find?_filter_of_imp {α : Type} (l : List α) (p q : α → Bool)
    (h : ∀ x, p x = true → q x = true) :
    (l.filter q).find? p = l.find? p := by
  induction l with
  | nil => rfl
  | cons hd tl ih =>
    cases hq : q hd with
    | true =>
      rw [List.filter_cons_of_pos hq]
      cases hp : p hd with
      | true => simp [List.find?, hp]
      | false => simp [List.find?, hp, ih]
    | false =>
      rw [List.filter_cons_of_neg (by simp [hq])]
      cases hp : p hd with
      | true => exact absurd (h hd hp) (by simp [hq])
      | false => rw [ih, List.find?]; simp [hp]

/-- Setting a header makes it the first (hence looked-up) value. -/
theorem headerLookup_headerSet_self (hs : Headers) (n v : String) :
    headerLookup (headerSet hs n v) n = some v := by
  simp [headerLookup, headerSet, List.find?]

/-- Setting one header leaves the lookup of any differently named header
unchanged. -/
theorem headerLookup_headerSet_ne (hs : Headers) (n m v : String)
    (h : lowerStr m ≠ lowerStr n) :
    headerLookup (headerSet hs n v) m = headerLookup hs m := by
  unfold headerLookup headerSet
  rw [List.find?]
  have hhd : (lowerStr (((n, v) : String × String).1) == lowerStr m) = false := by
    simp only [beq_eq_false_iff_ne, ne_eq]
    exact fun hnm => h hnm.symm
  rw [hhd]
  rw [find?_filter_of_imp]
  intro x hx
  simp only [beq_iff_eq] at hx
  simp only [Bool.not_eq_true', beq_eq_false_iff_ne, ne_eq, hx]
  exact fun hxn => h hxn

/-- With `my-private-header` present, the last cacheability write of the
after-send hook wins: the hook leaves `uncacheable` at `some true` no matter
which content-type branch ran. -/
theorem afterSend_uncacheable_of_private (c : CandidateResponse)
    (hpriv : headerContains c.headers "my-private-header" = true) :
    ((afterSendCalls c).foldl applyCall c).uncacheable = some true := by
  unfold afterSendCalls ttlCalls
  rw [hpriv]
  split_ifs <;> first
    | rfl
    | exact absurd rfl (by assumption)

/-! ## Claim theorems. -/

/-- C3: for every exchange whose cache lookup is a guaranteed hit, neither
the before-send callback nor the after-send callback is invoked, and the
stored body is returned to the caller byte-identical. -/
theorem c3_hit_runs_no_hooks (e : CacheEntry) (req : Request)
    (bs : Request → Except String Request)
    (as : CandidateResponse → Except String CandidateResponse)
    (tr : Except String Reply) (dtl : Nat) :
    (runExchange (.hit e) req bs as tr dtl).beforeSendCount = 0 ∧
    (runExchange (.hit e) req bs as tr dtl).afterSendCount = 0 ∧
    (runExchange (.hit e) req bs as tr dtl).result = .body e.body :=
  ⟨rfl, rfl, rfl⟩

/-- C5: if the before-send hook returns a failure, the transport's dispatch
is never invoked (zero dispatch calls) and the hook's failure is exactly the
error returned to the original caller. -/
theorem c5_before_send_failure_aborts_dispatch (l : LookupResult)
    (req : Request) (bs : Request → Except String Request)
    (as : CandidateResponse → Except String CandidateResponse)
    (tr : Except String Reply) (dtl : Nat) (err : String)
    (hl : l.isHit = false) (hbs : bs req = .error err) :
    (runExchange l req bs as tr dtl).dispatchCount = 0 ∧
    (runExchange l req bs as tr dtl).result = .failure err := by
  cases l with
  | hit e => simp [LookupResult.isHit] at hl
  | miss => constructor <;> simp [runExchange, dispatchPath, hbs]
  | stale e => constructor <;> simp [runExchange, dispatchPath, hbs]

/-- Witness for C5 at a concrete failing hook. -/
theorem c5_witness :
    (runExchange .miss ⟨"GET", "/", [], ""⟩ (fun _ => .error "boom")
        (fun c => .ok c) (.error "unused") 0).dispatchCount = 0 ∧
    (runExchange .miss ⟨"GET", "/", [], ""⟩ (fun _ => .error "boom")
        (fun c => .ok c) (.error "unused") 0).result = .failure "boom" :=
  c5_before_send_failure_aborts_dispatch .miss ⟨"GET", "/", [], ""⟩
    (fun _ => .error "boom") (fun c => .ok c) (.error "unused") 0 "boom" rfl rfl

/-- C4: for every revalidation-only reply, the previously stored body bytes
are left unchanged regardless of the hooks registered — the attached
transform is never executed — and only the metadata fields touched by the
policy hook change in the stored entry. -/
theorem c4_revalidation_preserves_stored_body (e : CacheEntry) (req : Request)
    (bs : Request → Except String Request)
    (as : CandidateResponse → Except String CandidateResponse)
    (dtl : Nat) (rep : Reply) (r : Request)
    (hbs : bs req = .ok r) (hkind : rep.kind = .revalidationOnly) :
    (runExchange (.stale e) req bs as (.ok rep) dtl).transformRuns = 0 ∧
    (applyOp (some e)
        (runExchange (.stale e) req bs as (.ok rep) dtl).storageOp).map
      CacheEntry.body = some e.body ∧
    (applyOp (some e)
        (runExchange (.stale e) req bs as (.ok rep) dtl).storageOp).map
      CacheEntry.status = some e.status ∧
    (runExchange (.stale e) req bs as (.ok rep) dtl).result = .body e.body := by
  cases has : as (initialCandidate rep) with
  | error msg =>
    refine ⟨?_, ?_, ?_, ?_⟩ <;>
      simp [runExchange, dispatchPath, hbs, has, hkind, applyOp, prevBody]
  | ok c =>
    refine ⟨?_, ?_, ?_, ?_⟩ <;>
      simp [runExchange, dispatchPath, hbs, has, hkind, applyOp, prevBody]

/-- Witness for C4 at a concrete revalidation exchange whose policy hook
attaches a transform. -/
theorem c4_witness :
    (runExchange
        (.stale ⟨[("etag", "x")], 200, "old-body", 10, false, false⟩)
        ⟨"GET", "/", [], ""⟩ programBeforeSend
        (fun c => .ok { c with transform := some jsonToHtmlTransform })
        (.ok ⟨304, [("etag", "x")], .revalidationOnly⟩) 30).transformRuns = 0 ∧
    (applyOp (some ⟨[("etag", "x")], 200, "old-body", 10, false, false⟩)
        (runExchange
          (.stale ⟨[("etag", "x")], 200, "old-body", 10, false, false⟩)
          ⟨"GET", "/", [], ""⟩ programBeforeSend
          (fun c => .ok { c with transform := some jsonToHtmlTransform })
          (.ok ⟨304, [("etag", "x")], .revalidationOnly⟩) 30).storageOp).map
      CacheEntry.body = some "old-body" ∧
    (applyOp (some ⟨[("etag", "x")], 200, "old-body", 10, false, false⟩)
        (runExchange
          (.stale ⟨[("etag", "x")], 200, "old-body", 10, false, false⟩)
          ⟨"GET", "/", [], ""⟩ programBeforeSend
          (fun c => .ok { c with transform := some jsonToHtmlTransform })
          (.ok ⟨304, [("etag", "x")], .revalidationOnly⟩) 30).storageOp).map
      CacheEntry.status = some 200 ∧
    (runExchange
        (.stale ⟨[("etag", "x")], 200, "old-body", 10, false, false⟩)
        ⟨"GET", "/", [], ""⟩ programBeforeSend
        (fun c => .ok { c with transform := some jsonToHtmlTransform })
        (.ok ⟨304, [("etag", "x")], .revalidationOnly⟩) 30).result =
      .body "old-body" :=
  c4_revalidation_preserves_stored_body
    ⟨[("etag", "x")], 200, "old-body", 10, false, false⟩ ⟨"GET", "/", [], ""⟩
    programBeforeSend
    (fun c => .ok { c with transform := some jsonToHtmlTransform })
    30 ⟨304, [("etag", "x")], .revalidationOnly⟩ _ rfl rfl

/-- C6: for every execution of an attached body transform that signals
failure, storage of the entry is abandoned and the caller still receives the
original untransformed body in full. -/
theorem c6_transform_failure_keeps_original_body (l : LookupResult)
    (req : Request) (bs : Request → Except String Request)
    (as : CandidateResponse → Except String CandidateResponse)
    (dtl : Nat) (rep : Reply) (b : String) (r : Request)
    (c : CandidateResponse) (f : String → TransformResult) (msg : String)
    (hl : l.isHit = false) (hbs : bs req = .ok r)
    (hkind : rep.kind = .full b)
    (has : as (initialCandidate rep) = .ok c)
    (hf : c.transform = some f) (hfail : f b = .err msg) :
    (runExchange l req bs as (.ok rep) dtl).storageOp = .noWrite ∧
    (runExchange l req bs as (.ok rep) dtl).result = .body b ∧
    (runExchange l req bs as (.ok rep) dtl).transformRuns = 1 := by
  cases l with
  | hit e => simp [LookupResult.isHit] at hl
  | miss =>
    refine ⟨?_, ?_, ?_⟩ <;>
      simp [runExchange, dispatchPath, hbs, has, hkind, hf, hfail]
  | stale e =>
    refine ⟨?_, ?_, ?_⟩ <;>
      simp [runExchange, dispatchPath, hbs, has, hkind, hf, hfail]

/-- Witness for C6 at a concrete failing transform. -/
theorem c6_witness :
    (runExchange .miss ⟨"GET", "/", [], ""⟩ programBeforeSend
        (fun c => .ok { c with transform := some (fun _ => .err "stream broke") })
        (.ok ⟨200, [("a", "b")], .full "original-body"⟩) 30).storageOp =
      .noWrite ∧
    (runExchange .miss ⟨"GET", "/", [], ""⟩ programBeforeSend
        (fun c => .ok { c with transform := some (fun _ => .err "stream broke") })
        (.ok ⟨200, [("a", "b")], .full "original-body"⟩) 30).result =
      .body "original-body" ∧
    (runExchange .miss ⟨"GET", "/", [], ""⟩ programBeforeSend
        (fun c => .ok { c with transform := some (fun _ => .err "stream broke") })
        (.ok ⟨200, [("a", "b")], .full "original-body"⟩) 30).transformRuns = 1 :=
  c6_transform_failure_keeps_original_body .miss ⟨"GET", "/", [], ""⟩
    programBeforeSend
    (fun c => .ok { c with transform := some (fun _ => .err "stream broke") })
    30 ⟨200, [("a", "b")], .full "original-body"⟩ "original-body" _
    { initialCandidate ⟨200, [("a", "b")], .full "original-body"⟩ with
        transform := some (fun _ => .err "stream broke") }
    (fun _ => .err "stream broke") "stream broke"
    rfl rfl rfl rfl rfl rfl

/-- C10: on every request, the before-send callback's only modification is
setting the `authorization` header to `"Foo"` — method, url, body and every
other header are unchanged — and it always returns `Ok`, so the request-hook
failure path is unreachable in this program. -/
theorem c10_before_send_only_sets_authorization (req : Request) (n : String)
    (hn : lowerStr n ≠ "authorization") :
    ∃ r, programBeforeSend req = .ok r ∧
      r.method = req.method ∧ r.url = req.url ∧ r.body = req.body ∧
      headerLookup r.headers "authorization" = some "Foo" ∧
      headerLookup r.headers n = headerLookup req.headers n := by
  refine ⟨_, rfl, rfl, rfl, rfl, headerLookup_headerSet_self _ _ _, ?_⟩
  refine headerLookup_headerSet_ne req.headers "authorization" n "Foo" ?_
  have hlow : lowerStr "authorization" = "authorization" := by decide
  rw [hlow]
  exact hn

/-- Witness for C10 at a concrete request and header name. -/
theorem c10_witness :
    ∃ r, programBeforeSend
        ⟨"GET", "http://origin/x", [("content-type", "text/plain")], "b"⟩ =
        .ok r ∧
      r.method = "GET" ∧ r.url = "http://origin/x" ∧ r.body = "b" ∧
      headerLookup r.headers "authorization" = some "Foo" ∧
      headerLookup r.headers "content-type" =
        headerLookup [("content-type", "text/plain")] "content-type" :=
  c10_before_send_only_sets_authorization
    ⟨"GET", "http://origin/x", [("content-type", "text/plain")], "b"⟩
    "content-type" (by decide)

/-- C8: the body-transform callback is not total: on every input that parses
as JSON it returns `Ok` with `<div>firstName lastName</div>` (empty strings
for missing or non-string fields), but on an input that is not valid JSON it
panics via `unwrap` instead of returning the fallible completion signal
`Err`. -/
theorem c8_transform_ok_on_json_panics_otherwise :
    (∀ s j, Json.parse s = some j →
      jsonToHtmlTransform s =
        .ok ("<div>" ++ ((j.index "firstName").asStr).getD "" ++ " " ++
          ((j.index "lastName").asStr).getD "" ++ "</div>")) ∧
    Json.parse "not json" = none ∧
    jsonToHtmlTransform "not json" = .panics := by
  refine ⟨?_, rfl, rfl⟩
  intro s j h
  simp [jsonToHtmlTransform, h]

/-- Witness for C8 at a concrete JSON body. -/
theorem c8_witness :
    jsonToHtmlTransform "\x7b\"firstName\":\"Ada\",\"lastName\":\"Lovelace\"\x7d" =
      .ok "<div>Ada Lovelace</div>" :=
  c8_transform_ok_on_json_panics_otherwise.1 _
    (.obj [("firstName", .str "Ada"), ("lastName", .str "Lovelace")]) rfl

/-- C9: on a backend response with `Content-Type: application/xml` that also
contains `my-private-header`, the hook calls `set_uncacheable(false)` first
and `set_uncacheable(true)` afterwards; the later write wins, so the final
committed decision is hit-for-pass, not a normal store. -/
theorem c9_later_uncacheable_write_wins (l : LookupResult) (req : Request)
    (dtl : Nat) (rep : Reply) (b : String)
    (hl : l.isHit = false)
    (hct : headerLookup rep.headers "Content-Type" = some "application/xml")
    (hpriv : headerContains rep.headers "my-private-header" = true)
    (hkind : rep.kind = .full b) :
    afterSendCalls (initialCandidate rep) =
      [.setUncacheable false, .setUncacheable true] ∧
    ((afterSendCalls (initialCandidate rep)).foldl applyCall
        (initialCandidate rep)).uncacheable = some true ∧
    (runExchange l req programBeforeSend programAfterSend (.ok rep) dtl).storageOp =
      .hitForPassMarker := by
  have hjson : ¬(getContentType rep.headers = some "application/json") := by
    unfold getContentType
    rw [hct]
    decide
  have hcalls : afterSendCalls (initialCandidate rep) =
      [.setUncacheable false, .setUncacheable true] := by
    unfold afterSendCalls ttlCalls initialCandidate
    simp only
    rw [hct, hpriv]
    simp [hjson]
  have htrans : ((afterSendCalls (initialCandidate rep)).foldl applyCall
      (initialCandidate rep)) =
      { initialCandidate rep with uncacheable := some true } := by
    rw [hcalls]
    rfl
  refine ⟨hcalls, ?_, ?_⟩
  · rw [htrans]
  · cases l with
    | hit e => simp [LookupResult.isHit] at hl
    | miss =>
      simp only [runExchange, dispatchPath, programBeforeSend, programAfterSend,
        htrans, hkind]
      simp [initialCandidate, commitFull]
    | stale e =>
      simp only [runExchange, dispatchPath, programBeforeSend, programAfterSend,
        htrans, hkind]
      simp [initialCandidate, commitFull]

/-- Witness for C9 at a concrete xml-plus-private-header reply. -/
theorem c9_witness :
    afterSendCalls (initialCandidate
        ⟨200, [("Content-Type", "application/xml"), ("my-private-header", "1")],
          .full "x"⟩) =
      [.setUncacheable false, .setUncacheable true] ∧
    ((afterSendCalls (initialCandidate
          ⟨200, [("Content-Type", "application/xml"), ("my-private-header", "1")],
            .full "x"⟩)).foldl applyCall
        (initialCandidate
          ⟨200, [("Content-Type", "application/xml"), ("my-private-header", "1")],
            .full "x"⟩)).uncacheable = some true ∧
    (runExchange .miss ⟨"GET", "/", [], ""⟩ programBeforeSend programAfterSend
        (.ok ⟨200, [("Content-Type", "application/xml"), ("my-private-header", "1")],
          .full "x"⟩) 30).storageOp = .hitForPassMarker :=
  c9_later_uncacheable_write_wins .miss ⟨"GET", "/", [], ""⟩ 30
    ⟨200, [("Content-Type", "application/xml"), ("my-private-header", "1")],
      .full "x"⟩ "x" rfl rfl rfl rfl

/-- C7: whenever the backend response contains `my-private-header`, the hook
marks the exchange uncacheable, so no normal put reaches storage — a
hit-for-pass marker (or no entry) is written instead — and a concurrent
identical-key exchange does not collapse into this one. -/
theorem c7_private_header_hit_for_pass (l : LookupResult) (req : Request)
    (dtl : Nat) (rep : Reply)
    (hl : l.isHit = false)
    (hpriv : headerContains rep.headers "my-private-header" = true) :
    (runExchange l req programBeforeSend programAfterSend
        (.ok rep) dtl).storageOp.isPut = false ∧
    (runExchange l req programBeforeSend programAfterSend
        (.ok rep) dtl).storageOp.allowsCollapsing = false := by
  have hunc : ((afterSendCalls (initialCandidate rep)).foldl applyCall
      (initialCandidate rep)).uncacheable = some true :=
    afterSend_uncacheable_of_private (initialCandidate rep) hpriv
  have main : ∀ prev, ((dispatchPath prev req programBeforeSend programAfterSend
        (.ok rep) dtl).storageOp.isPut = false ∧
      (dispatchPath prev req programBeforeSend programAfterSend
        (.ok rep) dtl).storageOp.allowsCollapsing = false) := by
    intro prev
    simp only [dispatchPath, programBeforeSend, programAfterSend]
    cases hkind : rep.kind with
    | revalidationOnly =>
      simp [hunc, StorageOp.isPut, StorageOp.allowsCollapsing]
    | full b =>
      cases ht : ((afterSendCalls (initialCandidate rep)).foldl applyCall
          (initialCandidate rep)).transform with
      | none =>
        simp [ht, commitFull, hunc, StorageOp.isPut, StorageOp.allowsCollapsing]
      | some f =>
        cases hf : f b with
        | ok out =>
          simp [ht, hf, commitFull, hunc, StorageOp.isPut,
            StorageOp.allowsCollapsing]
        | err msg =>
          simp [ht, hf, StorageOp.isPut, StorageOp.allowsCollapsing]
        | panics =>
          simp [ht, hf, StorageOp.isPut, StorageOp.allowsCollapsing]
  cases l with
  | hit e => simp [LookupResult.isHit] at hl
  | miss => exact main none
  | stale e => exact main (some e)

/-- Witness for C7 at a concrete reply carrying `my-private-header`. -/
theorem c7_witness :
    (runExchange .miss ⟨"GET", "/", [], ""⟩ programBeforeSend programAfterSend
        (.ok ⟨200, [("my-private-header", "1")], .full "secret"⟩)
        30).storageOp.isPut = false ∧
    (runExchange .miss ⟨"GET", "/", [], ""⟩ programBeforeSend programAfterSend
        (.ok ⟨200, [("my-private-header", "1")], .full "secret"⟩)
        30).storageOp.allowsCollapsing = false :=
  c7_private_header_hit_for_pass .miss ⟨"GET", "/", [], ""⟩ 30
    ⟨200, [("my-private-header", "1")], .full "secret"⟩ rfl rfl

/-- C1 counterexample: a full `application/json` reply with the Ada/Lovelace
body that also carries `my-private-header` is committed as a hit-for-pass
marker — no entry holding the transformed body is stored, contradicting the
claim's universal "the body stored in the cache ... is exactly
`<div>Ada Lovelace</div>`". -/
theorem c1_counterexample :
    (runExchange .miss ⟨"GET", "/", [], ""⟩ programBeforeSend programAfterSend
        (.ok ⟨200,
          [("Content-Type", "application/json"), ("my-private-header", "1")],
          .full "\x7b\"firstName\":\"Ada\",\"lastName\":\"Lovelace\"\x7d"⟩)
        60).storageOp = .hitForPassMarker ∧
    storedBody (applyOp none
      (runExchange .miss ⟨"GET", "/", [], ""⟩ programBeforeSend programAfterSend
        (.ok ⟨200,
          [("Content-Type", "application/json"), ("my-private-header", "1")],
          .full "\x7b\"firstName\":\"Ada\",\"lastName\":\"Lovelace\"\x7d"⟩)
        60).storageOp) = none := by
  constructor <;> rfl

/-- C1 as amended: for every full origin reply with content type
`application/json`, not containing `my-private-header`, whose body is exactly
the Ada/Lovelace JSON document, the stored body and the returned body are
both exactly `<div>Ada Lovelace</div>` and the content type is `text/html`
in both the stored entry and the delivered response. -/
theorem c1_json_transform_stored_and_returned (l : LookupResult)
    (req : Request) (dtl : Nat) (rep : Reply)
    (hl : l.isHit = false)
    (hct : getContentType rep.headers = some "application/json")
    (hpriv : headerContains rep.headers "my-private-header" = false)
    (hkind : rep.kind =
      .full "\x7b\"firstName\":\"Ada\",\"lastName\":\"Lovelace\"\x7d") :
    (runExchange l req programBeforeSend programAfterSend (.ok rep) dtl).result =
      .body "<div>Ada Lovelace</div>" ∧
    (runExchange l req programBeforeSend programAfterSend (.ok rep) dtl).storageOp =
      .put { headers := headerSet rep.headers "Content-Type" "text/html",
             status := rep.status, body := "<div>Ada Lovelace</div>",
             ttl := 30, uncacheable := false, hitForPass := false } ∧
    headerLookup
      (runExchange l req programBeforeSend programAfterSend
        (.ok rep) dtl).respHeaders "Content-Type" = some "text/html" := by
  obtain ⟨v, hv, hvl⟩ : ∃ v, headerLookup rep.headers "Content-Type" = some v ∧
      lowerStr (trimStr v) = "application/json" := by
    unfold getContentType at hct
    cases hL : headerLookup rep.headers "Content-Type" with
    | none => rw [hL] at hct; simp at hct
    | some v =>
      rw [hL] at hct
      simp only [Option.map_some', Option.some.injEq] at hct
      exact ⟨v, rfl, hct⟩
  have hne1 : v ≠ "image" := by
    intro h; rw [h] at hvl; exact absurd hvl (by decide)
  have hne2 : v ≠ "text/html" := by
    intro h; rw [h] at hvl; exact absurd hvl (by decide)
  have hne3 : v ≠ "application/xml" := by
    intro h; rw [h] at hvl; exact absurd hvl (by decide)
  have hch : (initialCandidate rep).headers = rep.headers := rfl
  have hcalls : afterSendCalls (initialCandidate rep) =
      [.setTtl 30, .setContentType "text/html", .setBodyTransform] := by
    unfold afterSendCalls ttlCalls
    rw [hch, hv, hpriv, hct]
    simp [hne1, hne2, hne3]
  have htrans : ((afterSendCalls (initialCandidate rep)).foldl applyCall
      (initialCandidate rep)) =
      { initialCandidate rep with
          ttl := some 30,
          headers := headerSet (initialCandidate rep).headers "Content-Type" "text/html",
          transform := some jsonToHtmlTransform } := by
    rw [hcalls]
    rfl
  have htrf : jsonToHtmlTransform
      "\x7b\"firstName\":\"Ada\",\"lastName\":\"Lovelace\"\x7d" =
      .ok "<div>Ada Lovelace</div>" := by rfl
  cases l with
  | hit e => simp [LookupResult.isHit] at hl
  | miss =>
    refine ⟨?_, ?_, ?_⟩ <;>
      · simp only [runExchange, dispatchPath, programBeforeSend,
          programAfterSend, htrans, hkind]
        simp [initialCandidate, commitFull, htrf, headerLookup_headerSet_self]
  | stale e =>
    refine ⟨?_, ?_, ?_⟩ <;>
      · simp only [runExchange, dispatchPath, programBeforeSend,
          programAfterSend, htrans, hkind]
        simp [initialCandidate, commitFull, htrf, headerLookup_headerSet_self]

/-- Witness for the amended C1 at a concrete json reply. -/
theorem c1_witness :
    (runExchange .miss ⟨"GET", "/", [], ""⟩ programBeforeSend programAfterSend
        (.ok ⟨200, [("Content-Type", "application/json")],
          .full "\x7b\"firstName\":\"Ada\",\"lastName\":\"Lovelace\"\x7d"⟩)
        60).result = .body "<div>Ada Lovelace</div>" ∧
    (runExchange .miss ⟨"GET", "/", [], ""⟩ programBeforeSend programAfterSend
        (.ok ⟨200, [("Content-Type", "application/json")],
          .full "\x7b\"firstName\":\"Ada\",\"lastName\":\"Lovelace\"\x7d"⟩)
        60).storageOp =
      .put { headers := headerSet [("Content-Type", "application/json")]
               "Content-Type" "text/html",
             status := 200, body := "<div>Ada Lovelace</div>",
             ttl := 30, uncacheable := false, hitForPass := false } ∧
    headerLookup
      (runExchange .miss ⟨"GET", "/", [], ""⟩ programBeforeSend programAfterSend
        (.ok ⟨200, [("Content-Type", "application/json")],
          .full "\x7b\"firstName\":\"Ada\",\"lastName\":\"Lovelace\"\x7d"⟩)
        60).respHeaders "Content-Type" = some "text/html" :=
  c1_json_transform_stored_and_returned .miss ⟨"GET", "/", [], ""⟩ 60
    ⟨200, [("Content-Type", "application/json")],
      .full "\x7b\"firstName\":\"Ada\",\"lastName\":\"Lovelace\"\x7d"⟩
    rfl rfl rfl rfl

/-- C2 counterexample: a full `application/xml` reply that also carries
`my-private-header` is committed as a hit-for-pass marker — no entry is
stored with the origin-derived default TTL, contradicting the claim's
universal "the resulting entry is stored in the cache". -/
theorem c2_counterexample :
    (runExchange .miss ⟨"GET", "/", [], ""⟩ programBeforeSend programAfterSend
        (.ok ⟨200,
          [("Content-Type", "application/xml"), ("my-private-header", "1")],
          .full "<x/>"⟩) 42).storageOp = .hitForPassMarker ∧
    storedBody (applyOp none
      (runExchange .miss ⟨"GET", "/", [], ""⟩ programBeforeSend programAfterSend
        (.ok ⟨200,
          [("Content-Type", "application/xml"), ("my-private-header", "1")],
          .full "<x/>"⟩) 42).storageOp) = none := by
  constructor <;> rfl

/-- C2 as amended: for every full origin reply carrying
`Content-Type: application/xml` and not containing `my-private-header`, the
hook calls `set_uncacheable(false)` and sets no explicit TTL (its default-TTL
branch is not taken), and the entry is stored using the origin-derived
default TTL. -/
theorem c2_xml_stored_with_default_ttl (l : LookupResult) (req : Request)
    (dtl : Nat) (rep : Reply) (b : String)
    (hl : l.isHit = false)
    (hct : headerLookup rep.headers "Content-Type" = some "application/xml")
    (hpriv : headerContains rep.headers "my-private-header" = false)
    (hkind : rep.kind = .full b) :
    afterSendCalls (initialCandidate rep) = [.setUncacheable false] ∧
    (runExchange l req programBeforeSend programAfterSend (.ok rep) dtl).storageOp =
      .put { headers := rep.headers, status := rep.status, body := b,
             ttl := dtl, uncacheable := false, hitForPass := false } := by
  have hjson : ¬(getContentType rep.headers = some "application/json") := by
    unfold getContentType
    rw [hct]
    decide
  have hch : (initialCandidate rep).headers = rep.headers := rfl
  have hcalls : afterSendCalls (initialCandidate rep) = [.setUncacheable false] := by
    unfold afterSendCalls ttlCalls
    rw [hch, hct, hpriv]
    simp [hjson]
  have htrans : ((afterSendCalls (initialCandidate rep)).foldl applyCall
      (initialCandidate rep)) =
      { initialCandidate rep with uncacheable := some false } := by
    rw [hcalls]
    rfl
  refine ⟨hcalls, ?_⟩
  cases l with
  | hit e => simp [LookupResult.isHit] at hl
  | miss =>
    simp only [runExchange, dispatchPath, programBeforeSend, programAfterSend,
      htrans, hkind]
    simp [initialCandidate, commitFull]
  | stale e =>
    simp only [runExchange, dispatchPath, programBeforeSend, programAfterSend,
      htrans, hkind]
    simp [initialCandidate, commitFull]

/-- Witness for the amended C2 at a concrete xml reply. -/
theorem c2_witness :
    afterSendCalls (initialCandidate
        ⟨200, [("Content-Type", "application/xml")], .full "<x/>"⟩) =
      [.setUncacheable false] ∧
    (runExchange .miss ⟨"GET", "/", [], ""⟩ programBeforeSend programAfterSend
        (.ok ⟨200, [("Content-Type", "application/xml")], .full "<x/>"⟩)
        42).storageOp =
      .put { headers := [("Content-Type", "application/xml")], status := 200,
             body := "<x/>", ttl := 42, uncacheable := false,
             hitForPass := false } :=
  c2_xml_stored_with_default_ttl .miss ⟨"GET", "/", [], ""⟩ 42
    ⟨200, [("Content-Type", "application/xml")], .full "<x/>"⟩ "<x/>"
    rfl rfl rfl rfl

end AdvancedCaching
